import Mathlib

/-!
Shallow embedding of the four kedro-datasets adapter classes
(`BioSequenceDataset`, `GraphMLDataset`, `GBQTableDataset`, `GBQQueryDataset`,
`CohereDataset`) and the parts of their collaborators that the verified
properties depend on.  Python dictionaries are modelled as insertion-ordered
association lists with string keys; heterogeneous Python values are modelled
by the `PyVal` type; exceptions become `Except PyError`; calls to external
services are modelled either by explicit event traces or by parameters
supplied by the caller.
-/

namespace KedroDatasets

/-- Heterogeneous Python values as they appear in the adapters' option maps. -/
inductive PyVal where
  | str (s : String)
  | bool (b : Bool)
  | int (n : Int)
  | pynone
  deriving DecidableEq, Repr

/-- A Python `dict` with string keys: an insertion-ordered association list
whose keys are unique in any dict produced by Python. -/
def Dict (α : Type _) : Type _ := List (String × α)

instance (α : Type _) [DecidableEq α] : DecidableEq (Dict α) :=
  inferInstanceAs (DecidableEq (List (String × α)))

instance (α : Type _) [Repr α] : Repr (Dict α) :=
  inferInstanceAs (Repr (List (String × α)))

namespace Dict

/-- The empty dict `{}`. -/
def empty {α : Type _} : Dict α := []

/-- `d[k]` lookup returning the first binding, `None`-free: `d.get(k)`. -/
def get? {α : Type _} (d : Dict α) (k : String) : Option α :=
  match d with
  | [] => none
  | (k₁, v₁) :: rest => if k₁ = k then some v₁ else get? rest k

/-- The list of keys of a dict, in insertion order. -/
def keys {α : Type _} (d : Dict α) : List String := d.map Prod.fst

/-- `d[k] = v`: replace the binding of `k` in place if present, else append,
matching CPython's insertion-order semantics. -/
def set {α : Type _} (d : Dict α) (k : String) (v : α) : Dict α :=
  match d with
  | [] => [(k, v)]
  | (k₁, v₁) :: rest => if k₁ = k then (k, v) :: rest else (k₁, v₁) :: set rest k v

/-- `d.update(u)`: set every binding of `u` into `d`, in order. -/
def update {α : Type _} (d u : Dict α) : Dict α :=
  u.foldl (fun acc kv => acc.set kv.1 kv.2) d

/-- `d.setdefault(k, v)`: insert `k ↦ v` only when `k` is absent. -/
def setdefault {α : Type _} (d : Dict α) (k : String) (v : α) : Dict α :=
  match d.get? k with
  | some _ => d
  | none => d.set k v

/-- `d.pop(k, default)`-style removal of a key: all bindings for other keys,
in order. -/
def erase {α : Type _} (d : Dict α) (k : String) : Dict α :=
  d.filter (fun kv => decide (kv.1 ≠ k))

end Dict

/-- The exception kinds the adapters raise or pass through. -/
inductive PyError where
  /-- `kedro`'s `DatasetError`, the error class all adapter-raised errors use. -/
  | datasetError (msg : String)
  /-- Python `KeyError`, raised by a `d[k]` lookup on a missing key. -/
  | keyError (key : String)
  /-- `google.cloud.exceptions.NotFound` from a remote probe. -/
  | notFound
  /-- Any other fault raised by an external collaborator. -/
  | externalFault (msg : String)
  deriving DecidableEq, Repr

/-- Merging user-supplied args over a class's defaults, as every adapter's
constructor does:
`self._args = deepcopy(DEFAULT_ARGS); if args is not None: self._args.update(args)`. -/
def mergeArgs (defaults : Dict PyVal) (user : Option (Dict PyVal)) : Dict PyVal :=
  match user with
  | none => defaults
  | some u => defaults.update u

/-- Python truthiness of an optional string argument defaulting to `None`:
`None` and the empty string are falsy. -/
def strTruthy : Option String → Bool
  | none => false
  | some s => s ≠ ""

/-- Split a character list at the first occurrence of `://`. -/
def splitSchemeAux : List Char → Option (List Char × List Char)
  | [] => none
  | ':' :: '/' :: '/' :: rest => some ([], rest)
  | c :: rest => (splitSchemeAux rest).map (fun pr => (c :: pr.1, pr.2))

/-- Modelled from the spec: `kedro.io.core.get_protocol_and_path` (external
collaborator, not part of this repository): a location string with an optional
`scheme://` prefix resolves to that scheme and path; with no prefix the
protocol is the local filesystem, `file`. -/
def get_protocol_and_path (filepath : String) : String × String :=
  match splitSchemeAux filepath.data with
  | none => ("file", filepath)
  | some (scheme, path) => (String.mk scheme, String.mk path)

/-- Modelled from the spec: `kedro.io.core.get_filepath_str` (external
collaborator): renders the resolved (protocol, path) pair back into the
string handed to the filesystem. -/
def get_filepath_str (path protocol : String) : String :=
  if protocol = "file" then path else protocol ++ "://" ++ path

/-- `kedro.io.core.validate_on_forbidden_chars` (external collaborator):
raises `DatasetError` when a value contains a space or a semicolon. -/
def hasForbiddenChars (s : String) : Bool :=
  s.data.any (fun c => c = ' ' || c = ';')

instance exceptDecEq {ε α : Type _} [DecidableEq ε] [DecidableEq α] :
    DecidableEq (Except ε α) := fun x y =>
  match x, y with
  | .ok a, .ok b =>
      if h : a = b then .isTrue (h ▸ rfl)
      else .isFalse (fun hc => h (Except.ok.inj hc))
  | .ok _, .error _ => .isFalse (fun hc => Except.noConfusion hc)
  | .error _, .ok _ => .isFalse (fun hc => Except.noConfusion hc)
  | .error d, .error e =>
      if h : d = e then .isTrue (h ▸ rfl)
      else .isFalse (fun hc => h (Except.error.inj hc))

/-- A format codec (external collaborator): `SeqIO.parse`/`SeqIO.write`,
`networkx.read_graphml`/`networkx.write_graphml`.  `write` receives the
merged save args and the domain object; `parse` receives the merged load
args and the stored content. -/
structure Codec (δ γ : Type _) where
  write : Dict PyVal → δ → γ
  parse : Dict PyVal → γ → δ

/-- The backing filesystem as observable through `fsspec`: a map from
resolved path strings to stored contents. -/
def FileStore (γ : Type _) : Type _ := Dict γ

/-- Observable calls an adapter operation makes on the filesystem layer. -/
inductive FsEvent where
  | fsWrite (path : String)
  | invalidateCache (path : String)
  deriving DecidableEq, Repr

/-- A `google.oauth2.credentials.Credentials`-or-dict constructor argument;
`fromDict d` models `Credentials(**d)` built from a dict, `obj` an opaque
pre-built credentials object. -/
inductive Credentials where
  | fromDict (d : Dict PyVal)
  | obj (id : Nat)
  deriving DecidableEq, Repr

/-- `str(v)` for the Python values we model. -/
def PyVal.pyStr : PyVal → String
  | .str s => s
  | .bool true => "True"
  | .bool false => "False"
  | .int n => toString n
  | .pynone => "None"

namespace BioSequenceDataset

/-- `fs_args` with its two reserved nested keys already split out, as
`__init__` does with `_fs_args.pop("open_args_load"/"open_args_save", {})`;
`rest` is what remains and is handed to `fsspec.filesystem`. -/
structure FsArgs where
  open_args_load : Option (Dict PyVal)
  open_args_save : Option (Dict PyVal)
  rest : Dict PyVal
  deriving DecidableEq, Repr

def DEFAULT_LOAD_ARGS : Dict PyVal := []

def DEFAULT_SAVE_ARGS : Dict PyVal := []

/-- The attributes a `BioSequenceDataset` instance holds after `__init__`. -/
structure State where
  filepath : String
  protocol : String
  fs_credentials : Dict PyVal
  fs_args : Dict PyVal
  load_args : Dict PyVal
  save_args : Dict PyVal
  fs_open_args_load : Dict PyVal
  fs_open_args_save : Dict PyVal
  metadata : Option (Dict PyVal)
  deriving DecidableEq, Repr

/-- `BioSequenceDataset.__init__`. -/
def init (filepath : String) (load_args save_args : Option (Dict PyVal))
    (credentials : Option (Dict PyVal)) (fs_args : Option FsArgs)
    (metadata : Option (Dict PyVal)) : State :=
  let fsa := fs_args.getD ⟨none, none, []⟩
  let fsOpenLoad := fsa.open_args_load.getD Dict.empty
  let fsOpenSave := fsa.open_args_save.getD Dict.empty
  let creds := credentials.getD Dict.empty
  let pp := get_protocol_and_path filepath
  let rest := if pp.1 = "file" then fsa.rest.setdefault "auto_mkdir" (.bool true) else fsa.rest
  { filepath := pp.2
    protocol := pp.1
    fs_credentials := creds
    fs_args := rest
    load_args := mergeArgs DEFAULT_LOAD_ARGS load_args
    save_args := mergeArgs DEFAULT_SAVE_ARGS save_args
    fs_open_args_load := fsOpenLoad.setdefault "mode" (.str "r")
    fs_open_args_save := fsOpenSave.setdefault "mode" (.str "w")
    metadata := metadata }

/-- The dict `_describe` returns: filepath, protocol and the two merged
option maps. -/
structure Description where
  filepath : String
  protocol : String
  load_args : Dict PyVal
  save_args : Dict PyVal
  deriving DecidableEq, Repr

/-- `BioSequenceDataset._describe`. -/
def describe (s : State) : Description :=
  { filepath := s.filepath
    protocol := s.protocol
    load_args := s.load_args
    save_args := s.save_args }

/-- `BioSequenceDataset._load`: resolve the path, open it through the
filesystem and hand the stream to `SeqIO.parse` with the merged load args.
The method assigns no instance attribute, so the state it returns is the
state it received. -/
def load {δ γ : Type _} (codec : Codec δ γ) (s : State) (fs : FileStore γ) :
    State × Except PyError δ :=
  let load_path := get_filepath_str s.filepath s.protocol
  match fs.get? load_path with
  | none => (s, .error (.externalFault ("file not found: " ++ load_path)))
  | some content => (s, .ok (codec.parse s.load_args content))

/-- `BioSequenceDataset._save`: resolve the path, open it and hand stream
and data to `SeqIO.write` with the merged save args.  Note: the method ends
after the write — it performs no cache invalidation. -/
def save {δ γ : Type _} (codec : Codec δ γ) (s : State) (fs : FileStore γ)
    (data : δ) : State × FileStore γ × List FsEvent :=
  let save_path := get_filepath_str s.filepath s.protocol
  (s, fs.set save_path (codec.write s.save_args data), [.fsWrite save_path])

/-- `BioSequenceDataset._exists`. -/
def existsOp {γ : Type _} (s : State) (fs : FileStore γ) : State × Bool :=
  (s, (fs.get? (get_filepath_str s.filepath s.protocol)).isSome)

end BioSequenceDataset

namespace GraphMLDataset

/-- A `kedro.io.core.Version` argument: independent load and save tags. -/
structure KedroVersion where
  load : Option String
  save : Option String
  deriving DecidableEq, Repr

def DEFAULT_LOAD_ARGS : Dict PyVal := []

def DEFAULT_SAVE_ARGS : Dict PyVal := []

/-- The attributes a `GraphMLDataset` instance holds after `__init__`. -/
structure State where
  filepath : String
  protocol : String
  version : Option KedroVersion
  fs_credentials : Dict PyVal
  fs_args : Dict PyVal
  load_args : Dict PyVal
  save_args : Dict PyVal
  fs_open_args_load : Dict PyVal
  fs_open_args_save : Dict PyVal
  metadata : Option (Dict PyVal)
  deriving DecidableEq, Repr

/-- `GraphMLDataset.__init__`. -/
def init (filepath : String) (load_args save_args : Option (Dict PyVal))
    (version : Option KedroVersion) (credentials : Option (Dict PyVal))
    (fs_args : Option BioSequenceDataset.FsArgs)
    (metadata : Option (Dict PyVal)) : State :=
  let fsa := fs_args.getD ⟨none, none, []⟩
  let fsOpenLoad := fsa.open_args_load.getD Dict.empty
  let fsOpenSave := fsa.open_args_save.getD Dict.empty
  let creds := credentials.getD Dict.empty
  let pp := get_protocol_and_path filepath
  let rest := if pp.1 = "file" then fsa.rest.setdefault "auto_mkdir" (.bool true) else fsa.rest
  { filepath := pp.2
    protocol := pp.1
    version := version
    fs_credentials := creds
    fs_args := rest
    load_args := mergeArgs DEFAULT_LOAD_ARGS load_args
    save_args := mergeArgs DEFAULT_SAVE_ARGS save_args
    fs_open_args_load := fsOpenLoad.setdefault "mode" (.str "rb")
    fs_open_args_save := fsOpenSave.setdefault "mode" (.str "wb")
    metadata := metadata }

/-- Modelled from the spec: versioned path resolution by the external
`kedro.io.core.AbstractVersionedDataset` collaborator — a versioned dataset
reads/writes under a timestamp-tagged subpath of the base filepath; with no
version the base filepath itself is used. -/
def versionedPath (filepath tag : String) : String :=
  filepath ++ "/" ++ tag

/-- `self._get_load_path()` (external kedro collaborator): the base filepath
when unversioned, else the tagged subpath ("latest" when the load component
is unspecified). -/
def getLoadPath (s : State) : String :=
  match s.version with
  | none => s.filepath
  | some v => versionedPath s.filepath (v.load.getD "latest")

/-- `self._get_save_path()` (external kedro collaborator): the base filepath
when unversioned, else the tagged subpath (an auto-generated tag when the
save component is unspecified). -/
def getSavePath (s : State) : String :=
  match s.version with
  | none => s.filepath
  | some v => versionedPath s.filepath (v.save.getD "generated")

/-- The dict `_describe` returns. -/
structure Description where
  filepath : String
  protocol : String
  load_args : Dict PyVal
  save_args : Dict PyVal
  version : Option KedroVersion
  deriving DecidableEq, Repr

/-- `GraphMLDataset._describe`. -/
def describe (s : State) : Description :=
  { filepath := s.filepath
    protocol := s.protocol
    load_args := s.load_args
    save_args := s.save_args
    version := s.version }

/-- `GraphMLDataset._load`.  Assigns no instance attribute. -/
def load {δ γ : Type _} (codec : Codec δ γ) (s : State) (fs : FileStore γ) :
    State × Except PyError δ :=
  let load_path := get_filepath_str (getLoadPath s) s.protocol
  match fs.get? load_path with
  | none => (s, .error (.externalFault ("file not found: " ++ load_path)))
  | some content => (s, .ok (codec.parse s.load_args content))

/-- `GraphMLDataset._save`: write through the codec, then
`self._invalidate_cache()`, which invalidates the entry for the *base*
filepath (`self._filepath`, not the versioned save path). -/
def save {δ γ : Type _} (codec : Codec δ γ) (s : State) (fs : FileStore γ)
    (data : δ) : State × FileStore γ × List FsEvent :=
  let save_path := get_filepath_str (getSavePath s) s.protocol
  let cache_path := get_filepath_str s.filepath s.protocol
  (s, fs.set save_path (codec.write s.save_args data),
   [.fsWrite save_path, .invalidateCache cache_path])

/-- `GraphMLDataset._exists`. -/
def existsOp {γ : Type _} (s : State) (fs : FileStore γ) : State × Bool :=
  (s, (fs.get? (get_filepath_str (getLoadPath s) s.protocol)).isSome)

end GraphMLDataset

/-- Observable external calls a GBQ adapter constructor makes, in order. -/
inductive InitEvent where
  | validateForbiddenChars (dataset table_name : String)
  | clientCreate (project : Option String) (location : Option PyVal)
  deriving DecidableEq, Repr

/-- The argument record of a `pandas.read_gbq` call (external collaborator). -/
structure ReadGbqCall where
  project_id : Option String
  credentials : Option Credentials
  args : Dict PyVal
  deriving DecidableEq, Repr

/-- The argument record of a `DataFrame.to_gbq` call (external collaborator). -/
structure ToGbqCall where
  destination : String
  project_id : Option String
  credentials : Option Credentials
  args : Dict PyVal
  deriving DecidableEq, Repr

/-- The outcome of the remote `client.get_table` probe. -/
inductive ProbeResult where
  | found
  | notFound
  | fault (msg : String)
  deriving DecidableEq, Repr

namespace GBQTableDataset

def DEFAULT_LOAD_ARGS : Dict PyVal := []

def DEFAULT_SAVE_ARGS : Dict PyVal := [("progress_bar", .bool false)]

/-- The attributes a `GBQTableDataset` instance holds after `__init__`. -/
structure State where
  dataset : String
  table_name : String
  project : Option String
  credentials : Option Credentials
  load_args : Dict PyVal
  save_args : Dict PyVal
  metadata : Option (Dict PyVal)
  deriving DecidableEq, Repr

/-- `GBQTableDataset.__init__`: merge the default maps, run
`_validate_location` (raising `DatasetError` when the two `location`
entries differ), then `validate_on_forbidden_chars`, then build the
BigQuery client with the save-args location.  The second component is the
ordered trace of external calls made before returning. -/
def init (dataset table_name : String) (project : Option String)
    (credentials : Option Credentials)
    (load_args save_args : Option (Dict PyVal))
    (metadata : Option (Dict PyVal)) :
    Except PyError State × List InitEvent :=
  let la := mergeArgs DEFAULT_LOAD_ARGS load_args
  let sa := mergeArgs DEFAULT_SAVE_ARGS save_args
  if sa.get? "location" ≠ la.get? "location" then
    (.error (.datasetError
      "load_args location is different from save_args location"), [])
  else if hasForbiddenChars dataset || hasForbiddenChars table_name then
    (.error (.datasetError "Neither white-space nor semicolon are allowed."),
     [.validateForbiddenChars dataset table_name])
  else
    (.ok { dataset := dataset
           table_name := table_name
           project := project
           credentials := credentials
           load_args := la
           save_args := sa
           metadata := metadata },
     [.validateForbiddenChars dataset table_name,
      .clientCreate project (sa.get? "location")])

/-- The dict `_describe` returns. -/
structure Description where
  dataset : String
  table_name : String
  load_args : Dict PyVal
  save_args : Dict PyVal
  deriving DecidableEq, Repr

/-- `GBQTableDataset._describe`. -/
def describe (s : State) : Description :=
  { dataset := s.dataset
    table_name := s.table_name
    load_args := s.load_args
    save_args := s.save_args }

/-- `GBQTableDataset._load`: `self._load_args.setdefault("query", sql)` —
this *mutates the stored load args* — then calls `pd.read_gbq` with them.
Returns the post-call state and the argument record of the external call. -/
def load (s : State) : State × ReadGbqCall :=
  let sql := "select * from " ++ s.dataset ++ "." ++ s.table_name
  let la := s.load_args.setdefault "query" (.str sql)
  ({ s with load_args := la },
   { project_id := s.project, credentials := s.credentials, args := la })

/-- `GBQTableDataset._save`: forwards everything to `DataFrame.to_gbq`;
assigns no instance attribute. -/
def save (s : State) : State × ToGbqCall :=
  (s,
   { destination := s.dataset ++ "." ++ s.table_name
     project_id := s.project
     credentials := s.credentials
     args := s.save_args })

/-- `GBQTableDataset._exists`: probe the table remotely; a `NotFound`
exception becomes `False`, success becomes `True`, and any other fault
propagates.  `remote` supplies the probe's outcome for a (dataset, table)
reference. -/
def existsOp (s : State) (remote : String → String → ProbeResult) :
    State × Except PyError Bool :=
  match remote s.dataset s.table_name with
  | .found => (s, .ok true)
  | .notFound => (s, .ok false)
  | .fault m => (s, .error (.externalFault m))

end GBQTableDataset

namespace GBQQueryDataset

/-- `fs_args` with the nested `credentials` key already split out, as
`__init__` does with `_fs_args.pop("credentials", {})`. -/
structure QueryFsArgs where
  credentials : Option (Dict PyVal)
  rest : Dict PyVal
  deriving DecidableEq, Repr

def DEFAULT_LOAD_ARGS : Dict PyVal := []

/-- The attributes a `GBQQueryDataset` instance holds after `__init__`.
In the inline-sql branch `filepath` is `None` and no filesystem is built. -/
structure State where
  project : Option String
  credentials : Option Credentials
  load_args : Dict PyVal
  filepath : Option String
  protocol : Option String
  fs_credentials : Dict PyVal
  fs_args : Dict PyVal
  metadata : Option (Dict PyVal)
  deriving DecidableEq, Repr

/-- `GBQQueryDataset.__init__`: reject truthy `sql` together with truthy
`filepath`, reject both falsy, merge the load args, build the client with
the load-args location, then either store the inline query under the
`"query"` key or resolve the query file's protocol and path. -/
def init (sql : Option String) (project : Option String)
    (credentials : Option Credentials) (load_args : Option (Dict PyVal))
    (fs_args : Option QueryFsArgs) (filepath : Option String)
    (metadata : Option (Dict PyVal)) :
    Except PyError State × List InitEvent :=
  if strTruthy sql && strTruthy filepath then
    (.error (.datasetError
      "sql and filepath arguments cannot both be provided. Please only provide one."), [])
  else if !(strTruthy sql || strTruthy filepath) then
    (.error (.datasetError
      "sql and filepath arguments cannot both be empty. Please provide a sql query or path to a sql query file."), [])
  else
    let la := mergeArgs DEFAULT_LOAD_ARGS load_args
    let ev := [InitEvent.clientCreate project (la.get? "location")]
    if strTruthy sql then
      (.ok { project := project
             credentials := credentials
             load_args := la.set "query" (.str (sql.getD ""))
             filepath := none
             protocol := none
             fs_credentials := Dict.empty
             fs_args := Dict.empty
             metadata := metadata }, ev)
    else
      let fsa := fs_args.getD ⟨none, []⟩
      let pp := get_protocol_and_path (filepath.getD "")
      (.ok { project := project
             credentials := credentials
             load_args := la
             filepath := some pp.2
             protocol := some pp.1
             fs_credentials := fsa.credentials.getD Dict.empty
             fs_args := fsa.rest
             metadata := metadata }, ev)

/-- The dict `_describe` returns (Python stringifies each value with
`str(...)`; we keep the remaining load-args map structured, which the
string rendering is a function of). -/
structure Description where
  sql : String
  filepath : String
  load_args : Dict PyVal
  deriving DecidableEq, Repr

/-- `GBQQueryDataset._describe`: deep-copy the load args, pop `"query"`
into the `sql` entry, stringify the filepath. -/
def describe (s : State) : Description :=
  { sql := ((s.load_args.get? "query").getD .pynone).pyStr
    filepath := (s.filepath.getD "None")
    load_args := s.load_args.erase "query" }

/-- `GBQQueryDataset._load`: works on a *deep copy* of the stored load
args — the instance is not mutated; when a filepath was given, read the
query text from the file before calling `pd.read_gbq`. -/
def load (s : State) (fileContents : FileStore String) :
    State × Except PyError ReadGbqCall :=
  if strTruthy s.filepath then
    let load_path := get_filepath_str (s.filepath.getD "") (s.protocol.getD "")
    match fileContents.get? load_path with
    | none => (s, .error (.externalFault ("file not found: " ++ load_path)))
    | some text =>
        (s, .ok { project_id := s.project
                  credentials := s.credentials
                  args := s.load_args.set "query" (.str text) })
  else
    (s, .ok { project_id := s.project
              credentials := s.credentials
              args := s.load_args })

/-- `GBQQueryDataset._save`: unconditionally raises `DatasetError` before
touching anything; the state and every external store are untouched. -/
def save (s : State) : State × Except PyError Unit :=
  (s, .error (.datasetError "save is not supported on GBQQueryDataset"))

end GBQQueryDataset

namespace CohereDataset

/-- The attributes a `CohereDataset` instance holds after `__init__`. -/
structure State where
  cohere_api_url : PyVal
  cohere_api_key : PyVal
  kwargs : Dict PyVal
  deriving DecidableEq, Repr

/-- `CohereDataset.__init__`: `credentials["cohere_api_url"]` and
`credentials["cohere_api_key"]` are plain subscript lookups — a missing key
raises Python `KeyError`, not a `DatasetError`; `kwargs or {}` stores the
empty dict for a missing (or falsy) `kwargs`. -/
def init (credentials : Dict PyVal) (kwargs : Option (Dict PyVal)) :
    Except PyError State :=
  match credentials.get? "cohere_api_url" with
  | none => .error (.keyError "cohere_api_url")
  | some url =>
    match credentials.get? "cohere_api_key" with
    | none => .error (.keyError "cohere_api_key")
    | some key =>
        .ok { cohere_api_url := url
              cohere_api_key := key
              kwargs := kwargs.getD Dict.empty }

/-- `CohereDataset._describe`: `{**self.kwargs}` — a shallow copy of the
kwargs map and nothing else. -/
def describe (s : State) : Dict PyVal :=
  s.kwargs

/-- The configured client handle `_load` returns (external `Cohere`
constructor). -/
structure ClientSpec where
  api_key : PyVal
  api_url : PyVal
  kwargs : Dict PyVal
  deriving DecidableEq, Repr

/-- `CohereDataset._load`: builds and returns a configured client; assigns
no instance attribute. -/
def load (s : State) : State × ClientSpec :=
  (s, { api_key := s.cohere_api_key, api_url := s.cohere_api_url, kwargs := s.kwargs })

/-- `CohereDataset._save`: unconditionally raises `DatasetError` before
touching anything. -/
def save (s : State) : State × Except PyError Unit :=
  (s, .error (.datasetError "CohereDataset is a read only data set type"))

end CohereDataset

/-- Does the adapter call trace contain a cache invalidation? -/
def FsEvent.isInvalidate : FsEvent → Bool
  | .invalidateCache _ => true
  | .fsWrite _ => false

/-- Is a result the `DatasetError` that kedro adapter validation raises? -/
def isDatasetError {α : Type _} : Except PyError α → Bool
  | .error (.datasetError _) => true
  | _ => false

/-- Did a fallible operation succeed? -/
def isOkResult {α : Type _} : Except PyError α → Bool
  | .ok _ => true
  | .error _ => false

/-- A biological sequence record as Biopython `SeqIO` yields it: a record
id and the sequence letters. -/
structure SeqRecord where
  id : String
  seq : String
  deriving DecidableEq, Repr

/-- One line of a FASTA file: a `>`-prefixed header carrying the record id,
or a line of sequence letters. -/
inductive FastaLine where
  | header (id : String)
  | seqline (s : String)
  deriving DecidableEq, Repr

/-- Modelled from the spec: the external FASTA codec (Biopython
`SeqIO.write` with format `fasta`), which the repository only delegates to:
each record becomes a header line carrying its id followed by its sequence
line. -/
def fastaWrite : List SeqRecord → List FastaLine
  | [] => []
  | r :: rest => .header r.id :: .seqline r.seq :: fastaWrite rest

/-- Modelled from the spec: the external FASTA codec (Biopython
`SeqIO.parse` with format `fasta`): each header line opens a record whose
sequence is the following line; records come back in file order. -/
def fastaParse : List FastaLine → List SeqRecord
  | .header i :: .seqline s :: rest => ⟨i, s⟩ :: fastaParse rest
  | _ => []

/-- The FASTA instance of the codec interface. -/
def fastaCodec : Codec (List SeqRecord) (List FastaLine) :=
  { write := fun _ rs => fastaWrite rs
    parse := fun _ ls => fastaParse ls }

/-!  Supporting lemmas about the dict model. -/

namespace Dict

theorem get?_set_self {α : Type _} (d : Dict α) (k : String) (v : α) :
    (d.set k v).get? k = some v := by
  induction d with
  | nil => simp [set, get?]
  | cons hd tl ih =>
    obtain ⟨k₁, v₁⟩ := hd
    by_cases hk : k₁ = k
    · simp [set, hk, get?]
    · simp [set, hk, get?, ih]

theorem get?_set_ne {α : Type _} (d : Dict α) (k k₂ : String) (v : α)
    (h : k ≠ k₂) : (d.set k v).get? k₂ = d.get? k₂ := by
  induction d with
  | nil => simp [set, get?, h]
  | cons hd tl ih =>
    obtain ⟨k₁, v₁⟩ := hd
    by_cases hk : k₁ = k
    · subst hk
      simp [set, get?, h]
    · by_cases hk₂ : k₁ = k₂ <;> simp [set, hk, get?, hk₂, ih, Ne.symm h]

theorem get?_update_not_mem {α : Type _} (d u : Dict α) (k : String)
    (h : k ∉ u.keys) : (d.update u).get? k = d.get? k := by
  induction u generalizing d with
  | nil => rfl
  | cons hd tl ih =>
    obtain ⟨k₁, v₁⟩ := hd
    have hne : k₁ ≠ k := by
      intro hcontra
      exact h (by simp [keys, hcontra])
    have htl : k ∉ keys tl := by
      intro hcontra
      exact h (by simp [keys] at hcontra ⊢; exact Or.inr hcontra)
    calc (Dict.update d ((k₁, v₁) :: tl)).get? k
        = (Dict.update (d.set k₁ v₁) tl).get? k := rfl
      _ = (d.set k₁ v₁).get? k := ih (d.set k₁ v₁) htl
      _ = d.get? k := get?_set_ne d k₁ k v₁ hne

theorem get?_update_mem {α : Type _} (d u : Dict α) (k : String) (v : α)
    (hnd : u.keys.Nodup) (h : u.get? k = some v) :
    (d.update u).get? k = some v := by
  induction u generalizing d with
  | nil => simp [get?] at h
  | cons hd tl ih =>
    obtain ⟨k₁, v₁⟩ := hd
    have hnd₁ : (k₁ :: keys tl).Nodup := hnd
    obtain ⟨hnot, hnd₂⟩ := List.nodup_cons.mp hnd₁
    by_cases hk : k₁ = k
    · subst hk
      have hv : v₁ = v := by simpa [get?] using h
      subst hv
      calc (Dict.update d ((k₁, v₁) :: tl)).get? k₁
          = (Dict.update (d.set k₁ v₁) tl).get? k₁ := rfl
        _ = (d.set k₁ v₁).get? k₁ := get?_update_not_mem _ tl k₁ hnot
        _ = some v₁ := get?_set_self d k₁ v₁
    · have h₂ : get? tl k = some v := by simpa [get?, hk] using h
      exact ih (d.set k₁ v₁) hnd₂ h₂

theorem get?_erase_ne {α : Type _} (d : Dict α) (k k₂ : String) (h : k₂ ≠ k) :
    (d.erase k).get? k₂ = d.get? k₂ := by
  induction d with
  | nil => rfl
  | cons hd tl ih =>
    obtain ⟨k₁, v₁⟩ := hd
    by_cases hk : k₁ = k
    · subst hk
      have hstep : Dict.erase ((k₁, v₁) :: tl) k₁ = Dict.erase tl k₁ := by
        simp [erase, List.filter_cons]
      rw [hstep, ih]
      have hne : ¬(k₁ = k₂) := fun hc => h hc.symm
      simp [get?, hne]
    · have hstep : Dict.erase ((k₁, v₁) :: tl) k = (k₁, v₁) :: Dict.erase tl k := by
        simp [erase, List.filter_cons, hk]
      rw [hstep]
      by_cases hk₂ : k₁ = k₂ <;> simp [get?, hk₂, ih]

theorem get?_setdefault_isSome {α : Type _} (d : Dict α) (k : String) (v : α) :
    ((d.setdefault k v).get? k).isSome := by
  unfold setdefault
  cases h : d.get? k with
  | none => simp [get?_set_self]
  | some w => simp [h]

theorem setdefault_idem {α : Type _} (d : Dict α) (k : String) (v w : α) :
    (d.setdefault k v).setdefault k w = d.setdefault k v := by
  cases h : d.get? k with
  | some x => simp [setdefault, h]
  | none => simp [setdefault, h, get?_set_self]

end Dict

/-- Writing then parsing FASTA recovers the records in order. -/
theorem fastaParse_fastaWrite (rs : List SeqRecord) :
    fastaParse (fastaWrite rs) = rs := by
  induction rs with
  | nil => rfl
  | cons r rest ih => simp [fastaWrite, fastaParse, ih]

/-- Claim C1 counterexample: for `GBQQueryDataset` the merged load map is
*not* the defaults shallow-overridden by the user map as observable through
`describe`: with `sql="SELECT 2"` and user `load_args={"query": "SELECT 1"}`,
the stored `query` entry is the `sql` argument, not the user's value, and
`describe` reports `sql = "SELECT 2"`. -/
theorem C1_counterexample_query_overwritten :
    ((GBQQueryDataset.init (some "SELECT 2") none none
        (some [("query", PyVal.str "SELECT 1")]) none none none).fst.toOption.map
      (fun s => s.load_args.get? "query")) = some (some (.str "SELECT 2")) ∧
    ((GBQQueryDataset.init (some "SELECT 2") none none
        (some [("query", PyVal.str "SELECT 1")]) none none none).fst.toOption.map
      (fun s => s.load_args.get? "query")) ≠ some (some (.str "SELECT 1")) ∧
    ((GBQQueryDataset.init (some "SELECT 2") none none
        (some [("query", PyVal.str "SELECT 1")]) none none none).fst.toOption.map
      (fun s => (GBQQueryDataset.describe s).sql)) = some "SELECT 2" := by
  decide

/-- Claim C1 (amended): the shared constructor idiom merges user args over
defaults with user keys overriding and absent defaults surviving, and each
adapter's describe-observable maps are exactly those merged maps — except
`GBQQueryDataset`, whose reserved `query` key is overwritten with the `sql`
argument when `sql` is provided (every other key obeys the merge law). -/
theorem C1_amended_merge_semantics :
    (∀ (d u : Dict PyVal) (k : String) (v : PyVal), u.keys.Nodup →
      u.get? k = some v → (mergeArgs d (some u)).get? k = some v) ∧
    (∀ (d u : Dict PyVal) (k : String), k ∉ u.keys →
      (mergeArgs d (some u)).get? k = d.get? k) ∧
    (∀ (d : Dict PyVal) (k : String), (mergeArgs d none).get? k = d.get? k) ∧
    (∀ fp la sa cr fa md,
      (BioSequenceDataset.describe (BioSequenceDataset.init fp la sa cr fa md)).load_args =
        mergeArgs BioSequenceDataset.DEFAULT_LOAD_ARGS la ∧
      (BioSequenceDataset.describe (BioSequenceDataset.init fp la sa cr fa md)).save_args =
        mergeArgs BioSequenceDataset.DEFAULT_SAVE_ARGS sa) ∧
    (∀ fp la sa ver cr fa md,
      (GraphMLDataset.describe (GraphMLDataset.init fp la sa ver cr fa md)).load_args =
        mergeArgs GraphMLDataset.DEFAULT_LOAD_ARGS la ∧
      (GraphMLDataset.describe (GraphMLDataset.init fp la sa ver cr fa md)).save_args =
        mergeArgs GraphMLDataset.DEFAULT_SAVE_ARGS sa) ∧
    (∀ ds tb pr cr la sa md st ev,
      GBQTableDataset.init ds tb pr cr la sa md = (.ok st, ev) →
      (GBQTableDataset.describe st).load_args =
        mergeArgs GBQTableDataset.DEFAULT_LOAD_ARGS la ∧
      (GBQTableDataset.describe st).save_args =
        mergeArgs GBQTableDataset.DEFAULT_SAVE_ARGS sa) ∧
    (∀ sa : Option (Dict PyVal), "progress_bar" ∉ (sa.getD Dict.empty).keys →
      (mergeArgs GBQTableDataset.DEFAULT_SAVE_ARGS sa).get? "progress_bar" =
        some (.bool false)) ∧
    (∀ sql pr cr la fa fp md st ev,
      GBQQueryDataset.init sql pr cr la fa fp md = (.ok st, ev) →
      st.load_args = (if strTruthy sql then
          (mergeArgs GBQQueryDataset.DEFAULT_LOAD_ARGS la).set "query"
            (.str (sql.getD ""))
        else mergeArgs GBQQueryDataset.DEFAULT_LOAD_ARGS la) ∧
      (∀ k, k ≠ "query" → st.load_args.get? k =
        (mergeArgs GBQQueryDataset.DEFAULT_LOAD_ARGS la).get? k)) := by
  refine ⟨fun d u k v hnd h => Dict.get?_update_mem d u k v hnd h,
    fun d u k h => Dict.get?_update_not_mem d u k h,
    fun d k => rfl,
    fun fp la sa cr fa md => ⟨rfl, rfl⟩,
    fun fp la sa ver cr fa md => ⟨rfl, rfl⟩,
    fun ds tb pr cr la sa md st ev h => ?_,
    fun sa h => ?_,
    fun sql pr cr la fa fp md st ev h => ?_⟩
  · simp only [GBQTableDataset.init] at h
    split at h
    · exact absurd (congrArg Prod.fst h) (by simp)
    · split at h
      · exact absurd (congrArg Prod.fst h) (by simp)
      · have hst := Except.ok.inj (congrArg Prod.fst h)
        rw [← hst]
        exact ⟨rfl, rfl⟩
  · cases sa with
    | none => decide
    | some u => exact Dict.get?_update_not_mem _ u "progress_bar" h
  · simp only [GBQQueryDataset.init] at h
    split at h
    · exact absurd (congrArg Prod.fst h) (by simp)
    · split at h
      · exact absurd (congrArg Prod.fst h) (by simp)
      · split at h
        · rename_i hsql
          have hst := Except.ok.inj (congrArg Prod.fst h)
          constructor
          · rw [← hst, if_pos hsql]
          · intro k hk
            rw [← hst]
            exact Dict.get?_set_ne _ "query" k _ (Ne.symm hk)
        · rename_i hsql
          have hst := Except.ok.inj (congrArg Prod.fst h)
          constructor
          · rw [← hst, if_neg hsql]
          · intro k hk
            rw [← hst]

/-- Claim C1 witness: on `GBQTableDataset` save args, a user-supplied
`progress_bar` overrides the default, and with only `chunk_size` supplied
the default `progress_bar=False` survives the merge. -/
theorem C1_amended_merge_semantics_witness :
    (mergeArgs GBQTableDataset.DEFAULT_SAVE_ARGS
        (some [("progress_bar", PyVal.bool true)])).get? "progress_bar" =
      some (.bool true) ∧
    (mergeArgs GBQTableDataset.DEFAULT_SAVE_ARGS
        (some [("chunk_size", PyVal.int 100)])).get? "progress_bar" =
      some (.bool false) :=
  ⟨C1_amended_merge_semantics.1 GBQTableDataset.DEFAULT_SAVE_ARGS
      [("progress_bar", PyVal.bool true)] "progress_bar" (PyVal.bool true)
      (by decide) (by decide),
   C1_amended_merge_semantics.2.2.2.2.2.2.1
      (some [("chunk_size", PyVal.int 100)]) (by decide)⟩

/-- Claim C2 counterexample: `GBQTableDataset.load` mutates the stored load
args at call time — on a fresh instance, `describe` reports no `query`
entry before the first `load()` and the generated select-all query after
it, so the maps are not identical across the call. -/
theorem C2_counterexample_table_load_mutates :
    ((GBQTableDataset.init "ds" "tb" none none none none none).fst.toOption.map
      (fun s => ((GBQTableDataset.describe s).load_args.get? "query",
                 (GBQTableDataset.describe (GBQTableDataset.load s).fst).load_args.get?
                   "query")))
      = some (none, some (.str "select * from ds.tb")) := by
  decide

/-- Claim C2 (amended): the merged option maps are fully materialized at
construction and no call mutates them, with one exception:
`GBQTableDataset.load` inserts the generated select-all query under the
`query` key when absent (`setdefault`); when `query` is already present the
state is unchanged, the mutation is idempotent, and save args are never
touched. -/
theorem C2_amended_call_time_stability :
    (∀ (δ γ : Type) (codec : Codec δ γ) (s : BioSequenceDataset.State) fs,
      (BioSequenceDataset.load codec s fs).fst = s) ∧
    (∀ (δ γ : Type) (codec : Codec δ γ) (s : BioSequenceDataset.State) fs data,
      (BioSequenceDataset.save codec s fs data).fst = s) ∧
    (∀ (γ : Type) (s : BioSequenceDataset.State) (fs : FileStore γ),
      (BioSequenceDataset.existsOp s fs).fst = s) ∧
    (∀ (δ γ : Type) (codec : Codec δ γ) (s : GraphMLDataset.State) fs,
      (GraphMLDataset.load codec s fs).fst = s) ∧
    (∀ (δ γ : Type) (codec : Codec δ γ) (s : GraphMLDataset.State) fs data,
      (GraphMLDataset.save codec s fs data).fst = s) ∧
    (∀ (γ : Type) (s : GraphMLDataset.State) (fs : FileStore γ),
      (GraphMLDataset.existsOp s fs).fst = s) ∧
    (∀ s : GBQTableDataset.State, (GBQTableDataset.save s).fst = s) ∧
    (∀ (s : GBQTableDataset.State) remote,
      (GBQTableDataset.existsOp s remote).fst = s) ∧
    (∀ s : GBQTableDataset.State,
      (GBQTableDataset.load s).fst.load_args =
        s.load_args.setdefault "query"
          (.str ("select * from " ++ s.dataset ++ "." ++ s.table_name)) ∧
      (GBQTableDataset.load s).fst.save_args = s.save_args) ∧
    (∀ s : GBQTableDataset.State, (s.load_args.get? "query").isSome →
      (GBQTableDataset.load s).fst = s) ∧
    (∀ s : GBQTableDataset.State,
      (GBQTableDataset.load (GBQTableDataset.load s).fst).fst =
        (GBQTableDataset.load s).fst) ∧
    (∀ (s : GBQQueryDataset.State) fc, (GBQQueryDataset.load s fc).fst = s) ∧
    (∀ s : GBQQueryDataset.State, (GBQQueryDataset.save s).fst = s) ∧
    (∀ s : CohereDataset.State, (CohereDataset.load s).fst = s) ∧
    (∀ s : CohereDataset.State, (CohereDataset.save s).fst = s) := by
  refine ⟨fun δ γ codec s fs => ?_, fun δ γ codec s fs data => rfl,
    fun γ s fs => rfl, fun δ γ codec s fs => ?_,
    fun δ γ codec s fs data => rfl, fun γ s fs => rfl,
    fun s => rfl, fun s remote => ?_, fun s => ⟨rfl, rfl⟩,
    fun s h => ?_, fun s => ?_, fun s fc => ?_, fun s => rfl,
    fun s => rfl, fun s => rfl⟩
  · simp only [BioSequenceDataset.load]
    split <;> rfl
  · simp only [GraphMLDataset.load]
    split <;> rfl
  · unfold GBQTableDataset.existsOp
    split <;> rfl
  · unfold GBQTableDataset.load
    simp only [Dict.setdefault]
    cases hq : s.load_args.get? "query" with
    | none => rw [hq] at h; simp at h
    | some v => simp [hq]
  · simp [GBQTableDataset.load, Dict.setdefault_idem]
  · simp only [GBQQueryDataset.load]
    split
    · split <;> rfl
    · rfl

/-- Claim C2 witness: a table instance whose load args already bind `query`
is unchanged by `load`. -/
theorem C2_amended_call_time_stability_witness :
    (GBQTableDataset.load
        ⟨"d", "t", none, none, [("query", PyVal.str "q")], [], none⟩).fst =
      ⟨"d", "t", none, none, [("query", PyVal.str "q")], [], none⟩ :=
  C2_amended_call_time_stability.2.2.2.2.2.2.2.2.2.1
    ⟨"d", "t", none, none, [("query", PyVal.str "q")], [], none⟩ (by decide)

/-- Claim C3: on the two read-only adapters, `CohereDataset` and
`GBQQueryDataset`, `save` raises a `DatasetError` for every instance and
input, returns the instance state unchanged, and triggers no external
call (the model's `save` takes no store and emits no event: the Python
method raises before touching anything). -/
theorem C3_readonly_save_raises :
    (∀ s : GBQQueryDataset.State,
        GBQQueryDataset.save s =
          (s, .error (.datasetError "save is not supported on GBQQueryDataset"))) ∧
    (∀ s : CohereDataset.State,
        CohereDataset.save s =
          (s, .error (.datasetError "CohereDataset is a read only data set type"))) := by
  exact ⟨fun s => rfl, fun s => rfl⟩

/-- Claim C4: constructing `GBQQueryDataset` with both `sql` and `filepath`
truthy raises `DatasetError`; with both falsy it raises `DatasetError`;
with exactly one truthy the construction succeeds. -/
theorem C4_sql_filepath_mutual_exclusion
    (sql : Option String) (pr : Option String) (cr : Option Credentials)
    (la : Option (Dict PyVal)) (fa : Option GBQQueryDataset.QueryFsArgs)
    (fp : Option String) (md : Option (Dict PyVal)) :
    (strTruthy sql = true → strTruthy fp = true →
      isDatasetError (GBQQueryDataset.init sql pr cr la fa fp md).fst = true) ∧
    (strTruthy sql = false → strTruthy fp = false →
      isDatasetError (GBQQueryDataset.init sql pr cr la fa fp md).fst = true) ∧
    (strTruthy sql ≠ strTruthy fp →
      isOkResult (GBQQueryDataset.init sql pr cr la fa fp md).fst = true) := by
  refine ⟨fun h1 h2 => ?_, fun h1 h2 => ?_, fun h => ?_⟩
  · simp [GBQQueryDataset.init, h1, h2, isDatasetError]
  · simp [GBQQueryDataset.init, h1, h2, isDatasetError]
  · cases hs : strTruthy sql <;> cases hf : strTruthy fp <;>
      simp [hs, hf] at h ⊢ <;>
      simp [GBQQueryDataset.init, hs, hf, isOkResult]

/-- Claim C4 witness: both provided, both empty, and exactly-one concrete
instances. -/
theorem C4_sql_filepath_mutual_exclusion_witness :
    isDatasetError (GBQQueryDataset.init (some "SELECT 1") none none none none
      (some "q.sql") none).fst = true ∧
    isDatasetError (GBQQueryDataset.init none none none none none none none).fst = true ∧
    isOkResult (GBQQueryDataset.init (some "SELECT 1") none none none none
      none none).fst = true :=
  ⟨(C4_sql_filepath_mutual_exclusion (some "SELECT 1") none none none none
      (some "q.sql") none).1 (by decide) (by decide),
   (C4_sql_filepath_mutual_exclusion none none none none none none none).2.1
      (by decide) (by decide),
   (C4_sql_filepath_mutual_exclusion (some "SELECT 1") none none none none
      none none).2.2 (by decide)⟩

/-- Claim C5: when the merged load and save args disagree on `location`
(including one present, one absent), `GBQTableDataset.__init__` raises a
`DatasetError` and its trace of external calls is empty — in particular the
BigQuery client is never created. -/
theorem C5_location_mismatch_before_client
    (ds tb : String) (pr : Option String) (cr : Option Credentials)
    (la sa md : Option (Dict PyVal))
    (hne : (mergeArgs GBQTableDataset.DEFAULT_SAVE_ARGS sa).get? "location" ≠
           (mergeArgs GBQTableDataset.DEFAULT_LOAD_ARGS la).get? "location") :
    GBQTableDataset.init ds tb pr cr la sa md =
      (.error (.datasetError
        "load_args location is different from save_args location"), []) := by
  simp only [GBQTableDataset.init]
  rw [if_pos hne]

/-- Claim C5 witness: `load_args={"location": "US"}`, `save_args=
{"location": "EU"}`. -/
theorem C5_location_mismatch_before_client_witness :
    GBQTableDataset.init "d" "t" none none
      (some [("location", PyVal.str "US")]) (some [("location", PyVal.str "EU")]) none =
      (.error (.datasetError
        "load_args location is different from save_args location"), []) :=
  C5_location_mismatch_before_client "d" "t" none none
    (some [("location", PyVal.str "US")]) (some [("location", PyVal.str "EU")]) none
    (by decide)

/-- Claim C6: `GBQTableDataset.exists` returns `false` exactly when the
remote probe raises `NotFound`; a successful probe yields `true`; any other
fault propagates as an error. -/
theorem C6_exists_notfound_is_false
    (s : GBQTableDataset.State) (remote : String → String → ProbeResult) :
    ((GBQTableDataset.existsOp s remote).snd = .ok false ↔
      remote s.dataset s.table_name = .notFound) ∧
    (remote s.dataset s.table_name = .found →
      (GBQTableDataset.existsOp s remote).snd = .ok true) ∧
    (∀ m, remote s.dataset s.table_name = .fault m →
      (GBQTableDataset.existsOp s remote).snd = .error (.externalFault m)) := by
  refine ⟨?_, fun h => ?_, fun m h => ?_⟩
  · unfold GBQTableDataset.existsOp
    cases h : remote s.dataset s.table_name <;> simp [h]
  · unfold GBQTableDataset.existsOp
    rw [h]
  · unfold GBQTableDataset.existsOp
    rw [h]

/-- Claim C6 witness: the three probe outcomes at a concrete instance. -/
theorem C6_exists_notfound_is_false_witness :
    (GBQTableDataset.existsOp ⟨"d", "t", none, none, [], [], none⟩
        (fun _ _ => .notFound)).snd = .ok false ∧
    (GBQTableDataset.existsOp ⟨"d", "t", none, none, [], [], none⟩
        (fun _ _ => .found)).snd = .ok true ∧
    (GBQTableDataset.existsOp ⟨"d", "t", none, none, [], [], none⟩
        (fun _ _ => .fault "permission denied")).snd =
      .error (.externalFault "permission denied") :=
  ⟨(C6_exists_notfound_is_false ⟨"d", "t", none, none, [], [], none⟩
      (fun _ _ => .notFound)).1.mpr (by decide),
   (C6_exists_notfound_is_false ⟨"d", "t", none, none, [], [], none⟩
      (fun _ _ => .found)).2.1 (by decide),
   (C6_exists_notfound_is_false ⟨"d", "t", none, none, [], [], none⟩
      (fun _ _ => .fault "permission denied")).2.2 "permission denied" (by decide)⟩

/-- Claim C10: `CohereDataset.__init__` raises a Python `KeyError` — not a
`DatasetError` — when `cohere_api_url` or `cohere_api_key` is missing from
`credentials`; with both keys present it succeeds, and a missing `kwargs`
is stored as the empty mapping. -/
theorem C10_cohere_init_key_lookup
    (credentials : Dict PyVal) (kwargs : Option (Dict PyVal)) :
    (credentials.get? "cohere_api_url" = none →
      CohereDataset.init credentials kwargs = .error (.keyError "cohere_api_url")) ∧
    (∀ u, credentials.get? "cohere_api_url" = some u →
      credentials.get? "cohere_api_key" = none →
      CohereDataset.init credentials kwargs = .error (.keyError "cohere_api_key")) ∧
    (∀ u k, credentials.get? "cohere_api_url" = some u →
      credentials.get? "cohere_api_key" = some k →
      CohereDataset.init credentials kwargs = .ok ⟨u, k, kwargs.getD Dict.empty⟩) ∧
    (PyError.keyError "cohere_api_url" ≠ PyError.datasetError "missing key" ∧
      ∀ s, CohereDataset.init credentials none = .ok s → s.kwargs = Dict.empty) := by
  refine ⟨fun h => ?_, fun u hu hk => ?_, fun u k hu hk => ?_, by decide, fun s h => ?_⟩
  · simp [CohereDataset.init, h]
  · simp [CohereDataset.init, hu, hk]
  · simp [CohereDataset.init, hu, hk]
  · unfold CohereDataset.init at h
    cases hu : credentials.get? "cohere_api_url" with
    | none => rw [hu] at h; exact absurd h (by simp)
    | some u =>
      rw [hu] at h
      cases hk : credentials.get? "cohere_api_key" with
      | none => rw [hk] at h; exact absurd h (by simp)
      | some k =>
        rw [hk] at h
        have := Except.ok.inj h
        rw [← this]
        rfl

/-- Claim C7 counterexample: `BioSequenceDataset._save` performs no cache
invalidation — a concrete successful save's filesystem-call trace contains
no `invalidateCache` event, contradicting the claim that every successful
save of a file-backed adapter invalidates the read cache before returning. -/
theorem C7_counterexample_bio_no_invalidate :
    ((BioSequenceDataset.save fastaCodec
        (BioSequenceDataset.init "data.fasta" none none none none none)
        Dict.empty [⟨"Alpha", "ACCG"⟩]).snd.snd).any FsEvent.isInvalidate = false := by
  decide

/-- Claim C7 (amended): `GraphMLDataset._save` writes and then invalidates
the cache entry for the dataset's base filepath before returning — for an
unversioned dataset this is exactly the written path; `BioSequenceDataset._save`
performs no cache invalidation (only its `release` does). -/
theorem C7_amended_graphml_invalidates
    {δ γ : Type} (codec : Codec δ γ) (s : GraphMLDataset.State)
    (fs : FileStore γ) (data : δ) :
    ((GraphMLDataset.save codec s fs data).snd.snd =
      [.fsWrite (get_filepath_str (GraphMLDataset.getSavePath s) s.protocol),
       .invalidateCache (get_filepath_str s.filepath s.protocol)]) ∧
    (s.version = none →
      (GraphMLDataset.save codec s fs data).snd.snd =
        [.fsWrite (get_filepath_str s.filepath s.protocol),
         .invalidateCache (get_filepath_str s.filepath s.protocol)]) ∧
    (∀ s₂ : BioSequenceDataset.State, ∀ fs₂ data₂,
      ((BioSequenceDataset.save codec s₂ fs₂ data₂).snd.snd).any
        FsEvent.isInvalidate = false) := by
  refine ⟨rfl, fun hv => ?_, fun s₂ fs₂ data₂ => ?_⟩
  · simp [GraphMLDataset.save, GraphMLDataset.getSavePath, hv]
  · simp [BioSequenceDataset.save, FsEvent.isInvalidate]

/-- Claim C7 witness: an unversioned GraphML instance's save trace is the
write followed by invalidation of the written path. -/
theorem C7_amended_graphml_invalidates_witness :
    (GraphMLDataset.save fastaCodec
        (GraphMLDataset.init "dev/test.graphml" none none none none none none)
        Dict.empty [⟨"Alpha", "ACCG"⟩]).snd.snd =
      [.fsWrite "dev/test.graphml", .invalidateCache "dev/test.graphml"] := by
  have h := (C7_amended_graphml_invalidates fastaCodec
    (GraphMLDataset.init "dev/test.graphml" none none none none none none)
    Dict.empty [⟨"Alpha", "ACCG"⟩]).2.1 (by decide)
  rw [h]
  decide

/-- Claim C8: for the two adapters with both load and save, saving then
loading returns the saved object whenever the codec round-trips it under
the instance's merged options (the "modulo format-defined loss" proviso);
for GraphML the unversioned case is stated, versioned path resolution being
external.  The witness instantiates the FASTA scenario with records
`Alpha` and `Beta`. -/
theorem C8_save_load_roundtrip :
    (∀ (δ γ : Type) (codec : Codec δ γ) (s : BioSequenceDataset.State)
        (fs : FileStore γ) (x : δ),
      codec.parse s.load_args (codec.write s.save_args x) = x →
      (BioSequenceDataset.load codec s
        (BioSequenceDataset.save codec s fs x).snd.fst).snd = .ok x) ∧
    (∀ (δ γ : Type) (codec : Codec δ γ) (s : GraphMLDataset.State)
        (fs : FileStore γ) (x : δ),
      s.version = none →
      codec.parse s.load_args (codec.write s.save_args x) = x →
      (GraphMLDataset.load codec s
        (GraphMLDataset.save codec s fs x).snd.fst).snd = .ok x) := by
  constructor
  · intro δ γ codec s fs x hcodec
    simp [BioSequenceDataset.save, BioSequenceDataset.load,
      Dict.get?_set_self, hcodec]
  · intro δ γ codec s fs x hv hcodec
    simp [GraphMLDataset.save, GraphMLDataset.load,
      GraphMLDataset.getSavePath, GraphMLDataset.getLoadPath, hv,
      Dict.get?_set_self, hcodec]

/-- Claim C8 witness: the FASTA concrete scenario — save records `Alpha`
and `Beta` with `load_args={"format": "fasta"}`, `save_args={"format":
"fasta"}`, load them back, and the ids come back in order. -/
theorem C8_save_load_roundtrip_witness :
    (BioSequenceDataset.load fastaCodec
        (BioSequenceDataset.init "records.fasta" (some [("format", PyVal.str "fasta")])
          (some [("format", PyVal.str "fasta")]) none none none)
        (BioSequenceDataset.save fastaCodec
          (BioSequenceDataset.init "records.fasta" (some [("format", PyVal.str "fasta")])
            (some [("format", PyVal.str "fasta")]) none none none)
          Dict.empty
          [⟨"Alpha", "ACCGGATGTA"⟩, ⟨"Beta", "AGGCTCGGTTA"⟩]).snd.fst).snd
      = .ok [⟨"Alpha", "ACCGGATGTA"⟩, ⟨"Beta", "AGGCTCGGTTA"⟩] ∧
    [SeqRecord.mk "Alpha" "ACCGGATGTA", SeqRecord.mk "Beta" "AGGCTCGGTTA"].map
      SeqRecord.id = ["Alpha", "Beta"] :=
  ⟨C8_save_load_roundtrip.1 (List SeqRecord) (List FastaLine) fastaCodec
      (BioSequenceDataset.init "records.fasta" (some [("format", PyVal.str "fasta")])
        (some [("format", PyVal.str "fasta")]) none none none)
      Dict.empty [⟨"Alpha", "ACCGGATGTA"⟩, ⟨"Beta", "AGGCTCGGTTA"⟩] (by decide),
   by decide⟩

/-- Claim C9: `describe` never depends on the credentials argument — for
every adapter, two constructions differing only in `credentials` produce
identical `describe` output. -/
theorem C9_describe_ignores_credentials :
    (∀ fp la sa c₁ c₂ fa md,
      BioSequenceDataset.describe (BioSequenceDataset.init fp la sa c₁ fa md) =
      BioSequenceDataset.describe (BioSequenceDataset.init fp la sa c₂ fa md)) ∧
    (∀ fp la sa ver c₁ c₂ fa md,
      GraphMLDataset.describe (GraphMLDataset.init fp la sa ver c₁ fa md) =
      GraphMLDataset.describe (GraphMLDataset.init fp la sa ver c₂ fa md)) ∧
    (∀ ds tb pr c₁ c₂ la sa md,
      ((GBQTableDataset.init ds tb pr c₁ la sa md).fst.toOption.map
        GBQTableDataset.describe) =
      ((GBQTableDataset.init ds tb pr c₂ la sa md).fst.toOption.map
        GBQTableDataset.describe)) ∧
    (∀ sql pr c₁ c₂ la fa fp md,
      ((GBQQueryDataset.init sql pr c₁ la fa fp md).fst.toOption.map
        GBQQueryDataset.describe) =
      ((GBQQueryDataset.init sql pr c₂ la fa fp md).fst.toOption.map
        GBQQueryDataset.describe)) ∧
    (∀ cr₁ cr₂ kw s₁ s₂,
      CohereDataset.init cr₁ kw = .ok s₁ → CohereDataset.init cr₂ kw = .ok s₂ →
      CohereDataset.describe s₁ = CohereDataset.describe s₂) := by
  refine ⟨fun fp la sa c₁ c₂ fa md => rfl, fun fp la sa ver c₁ c₂ fa md => rfl,
    fun ds tb pr c₁ c₂ la sa md => ?_, fun sql pr c₁ c₂ la fa fp md => ?_,
    fun cr₁ cr₂ kw s₁ s₂ h₁ h₂ => ?_⟩
  · simp only [GBQTableDataset.init]
    split
    · rfl
    · split <;> rfl
  · simp only [GBQQueryDataset.init]
    split
    · rfl
    · split
      · rfl
      · split <;> rfl
  · unfold CohereDataset.init at h₁ h₂
    cases hu₁ : cr₁.get? "cohere_api_url" <;> rw [hu₁] at h₁
    · exact absurd h₁ (by simp)
    · cases hk₁ : cr₁.get? "cohere_api_key" <;> rw [hk₁] at h₁
      · exact absurd h₁ (by simp)
      · cases hu₂ : cr₂.get? "cohere_api_url" <;> rw [hu₂] at h₂
        · exact absurd h₂ (by simp)
        · cases hk₂ : cr₂.get? "cohere_api_key" <;> rw [hk₂] at h₂
          · exact absurd h₂ (by simp)
          · rw [← Except.ok.inj h₁, ← Except.ok.inj h₂]
            rfl

/-- Claim C9 witness: two Cohere constructions with different credential
values describe identically. -/
theorem C9_describe_ignores_credentials_witness :
    CohereDataset.describe ⟨.str "u1", .str "k1", [("model", PyVal.str "command")]⟩ =
    CohereDataset.describe ⟨.str "u2", .str "k2", [("model", PyVal.str "command")]⟩ :=
  C9_describe_ignores_credentials.2.2.2.2
    [("cohere_api_url", PyVal.str "u1"), ("cohere_api_key", PyVal.str "k1")]
    [("cohere_api_url", PyVal.str "u2"), ("cohere_api_key", PyVal.str "k2")]
    (some [("model", PyVal.str "command")]) _ _ (by decide) (by decide)

/-- Claim C10 witness: missing-url, missing-key, and fully-supplied
concrete credential mappings. -/
theorem C10_cohere_init_key_lookup_witness :
    CohereDataset.init [("cohere_api_key", PyVal.str "k")] none =
      .error (.keyError "cohere_api_url") ∧
    CohereDataset.init [("cohere_api_url", PyVal.str "u")] none =
      .error (.keyError "cohere_api_key") ∧
    CohereDataset.init [("cohere_api_url", PyVal.str "u"),
        ("cohere_api_key", PyVal.str "k")] none =
      .ok ⟨.str "u", .str "k", Dict.empty⟩ :=
  ⟨(C10_cohere_init_key_lookup [("cohere_api_key", PyVal.str "k")] none).1 (by decide),
   (C10_cohere_init_key_lookup [("cohere_api_url", PyVal.str "u")] none).2.1
      (.str "u") (by decide) (by decide),
   (C10_cohere_init_key_lookup [("cohere_api_url", PyVal.str "u"),
        ("cohere_api_key", PyVal.str "k")] none).2.2.1
      (.str "u") (.str "k") (by decide) (by decide)⟩

end KedroDatasets
